import Mathlib

/-!
Shallow embedding of the map-state orchestrator (`MapBuilder`) from
`cartographer/mapping/map_builder.cc`, together with theorems about its
trajectory-id allocation, deserialization (`LoadState`, `LoadStateLandmark`)
and submap query surface.

The pose graph, collator and local estimators are external collaborators:
calls into the pose graph are recorded as an explicit event trace
(`Event`), and the orchestrator's own mutable state (`trajectory_builders_`,
`all_trajectory_builder_options_`) is threaded explicitly.  Fatal `CHECK`
failures and uncaught exceptions (`std::map::at`, protobuf index checks)
are modelled as `Except` errors.  Poses (`Rigid3d`, C++ doubles) are
modelled over `ℚ`; sensor payloads and submap contents are carried as
opaque `Nat` tokens, since the claims only concern where they are routed.
-/

namespace MapBuilderModel

/-- `transform::Rigid3d`: a translation and a quaternion rotation
(`w, x, y, z` components). -/
structure Rigid3d where
  tx : ℚ
  ty : ℚ
  tz : ℚ
  qw : ℚ
  qx : ℚ
  qy : ℚ
  qz : ℚ
deriving DecidableEq, Repr

/-- The identity transform used by `LocalSubmapToProto`. -/
def Rigid3dIdentity : Rigid3d := ⟨0, 0, 0, 1, 0, 0, 0⟩

/-- `SubmapId`: (trajectory_id, submap_index). -/
structure SubmapId where
  trajectory_id : Int
  submap_index : Int
deriving DecidableEq, Repr

/-- `NodeId`: (trajectory_id, node_index). -/
structure NodeId where
  trajectory_id : Int
  node_index : Int
deriving DecidableEq, Repr

/-- `proto::PoseGraph::Constraint::Tag`. -/
inductive ConstraintTag where
  | INTRA_SUBMAP
  | INTER_SUBMAP
deriving DecidableEq, Repr

/-- A constraint of the pose-graph summary; `payload` carries the relative
pose and weights, which `FromProto` converts unchanged. -/
structure ConstraintProto where
  submap_id : SubmapId
  node_id : NodeId
  tag : ConstraintTag
  payload : Nat
deriving DecidableEq, Repr

/-- `proto::Trajectory::Submap`: local index plus global pose. -/
structure TrajectorySubmapProto where
  submap_index : Int
  pose : Rigid3d
deriving DecidableEq, Repr

/-- `proto::Trajectory::Node`: local index plus global pose. -/
structure TrajectoryNodeProto where
  node_index : Int
  pose : Rigid3d
deriving DecidableEq, Repr

/-- One trajectory record of the pose-graph summary. -/
structure TrajectoryProto where
  trajectory_id : Int
  submap : List TrajectorySubmapProto
  node : List TrajectoryNodeProto
deriving DecidableEq, Repr

/-- A landmark pose of the pose-graph summary. -/
structure LandmarkPoseProto where
  landmark_id : String
  global_pose : Rigid3d
deriving DecidableEq, Repr

/-- `proto::PoseGraph`: the embedded summary record. -/
structure PoseGraphProto where
  trajectory : List TrajectoryProto
  constraint : List ConstraintProto
  landmark_poses : List LandmarkPoseProto
deriving DecidableEq, Repr

/-- `InitialTrajectoryPose` option. -/
structure InitialTrajectoryPose where
  to_trajectory_id : Int
  relative_pose : Rigid3d
  timestamp : Int
deriving DecidableEq, Repr

/-- The fields of `proto::TrajectoryBuilderOptions` that
`MapBuilder::AddTrajectoryBuilder` inspects. -/
structure TrajectoryBuilderOptions where
  has_overlapping_submaps_trimmer_2d : Bool
  pure_localization : Bool
  initial_trajectory_pose : Option InitialTrajectoryPose
deriving DecidableEq, Repr

/-- `proto::TrajectoryBuilderOptionsWithSensorIds`. -/
structure OptionsWithSensorIds where
  sensor_id : List String
  trajectory_builder_options : TrajectoryBuilderOptions
deriving DecidableEq, Repr

/-- A streamed `SerializedData` record (`proto.data_case()` alternatives). -/
inductive SerializedRecord where
  | kPoseGraph (p : PoseGraphProto)
  | kAllTrajectoryBuilderOptions (o : List OptionsWithSensorIds)
  | kSubmap (submap_id : SubmapId) (payload : Nat)
  | kNode (node_id : NodeId) (payload : Nat)
  | kTrajectoryData (trajectory_id : Int) (payload : Nat)
  | kImuData (trajectory_id : Int) (payload : Nat)
  | kOdometryData (trajectory_id : Int) (payload : Nat)
  | kFixedFramePoseData (trajectory_id : Int) (payload : Nat)
  | kLandmarkData (trajectory_id : Int) (payload : Nat)
  | kUnknown (typeName : String)
deriving DecidableEq, Repr

/-- A call made by `MapBuilder` into the pose graph, or a log line.  The
list of these events is the observable effect of an orchestrator
operation on the (external) pose graph. -/
inductive Event where
  | FreezeTrajectory (trajectory_id : Int)
  | SetLandmarkPose (landmark_id : String) (pose : Rigid3d)
  | AddSubmapFromProto (pose : Rigid3d) (submap_id : SubmapId) (payload : Nat)
  | AddNodeFromProto (pose : Rigid3d) (node_id : NodeId) (payload : Nat)
  | SetTrajectoryDataFromProto (trajectory_id : Int) (payload : Nat)
  | AddImuData (trajectory_id : Int) (payload : Nat)
  | AddOdometryData (trajectory_id : Int) (payload : Nat)
  | AddFixedFramePoseData (trajectory_id : Int) (payload : Nat)
  | AddLandmarkData (trajectory_id : Int) (payload : Nat)
  | AddNodeToSubmap (node_id : NodeId) (submap_id : SubmapId)
  | AddSerializedConstraints (constraints : List ConstraintProto)
  | AddTrimmer (kind : String)
  | SetInitialTrajectoryPose (trajectory_id : Int) (to_trajectory_id : Int)
      (relative_pose : Rigid3d) (timestamp : Int)
  | LogError (msg : String)
  | LogWarning (msg : String)
deriving DecidableEq, Repr

/-- The orchestrator's own mutable state: `trajectory_builders_` (an entry
is `true` when it is a `CollatedTrajectoryBuilder` wired to the sensor
collator, `false` when it is the empty placeholder pushed by
`AddTrajectoryForDeserialization`), `all_trajectory_builder_options_`,
and the construction-time 2D/3D flag. -/
structure MapBuilderState where
  trajectory_builders : List Bool
  all_trajectory_builder_options : List OptionsWithSensorIds
  use_trajectory_builder_3d : Bool
deriving DecidableEq, Repr

/-- The state right after the `MapBuilder` constructor. -/
def initialMapBuilderState (use_trajectory_builder_3d : Bool) : MapBuilderState :=
  ⟨[], [], use_trajectory_builder_3d⟩

/-- Association-list lookup (models `std::map` lookup and `MapById`
lookup; keys are unique by construction). -/
def assocFind {α β : Type} [DecidableEq α] : List (α × β) → α → Option β
  | [], _ => none
  | (a, b) :: rest, k => if a = k then some b else assocFind rest k

/-- Protobuf repeated-field access with an `int` index; out-of-range
access is a fatal check inside protobuf (modelled as `none`). -/
def repeatedGet {α : Type} (l : List α) (i : Int) : Option α :=
  if 0 ≤ i then l.get? i.toNat else none

/-- `MapBuilder::AddTrajectoryBuilder` (lines 98-169): allocates the next
dense trajectory id, wires a collated builder, registers trimmers and
the initial pose if configured, and records the options. -/
def MapBuilder.AddTrajectoryBuilder (s : MapBuilderState)
    (expected_sensor_ids : List String)
    (trajectory_options : TrajectoryBuilderOptions) :
    Int × MapBuilderState × List Event :=
  let trajectory_id : Int := s.trajectory_builders.length
  let trimmerEvents : List Event :=
    if s.use_trajectory_builder_3d then []
    else if trajectory_options.has_overlapping_submaps_trimmer_2d then
      [Event.AddTrimmer "OverlappingSubmapsTrimmer2D"]
    else []
  let pureLocEvents : List Event :=
    if trajectory_options.pure_localization then
      [Event.AddTrimmer "PureLocalizationTrimmer"]
    else []
  let initialPoseEvents : List Event :=
    match trajectory_options.initial_trajectory_pose with
    | some p => [Event.SetInitialTrajectoryPose trajectory_id p.to_trajectory_id
        p.relative_pose p.timestamp]
    | none => []
  (trajectory_id,
   { s with
     trajectory_builders := s.trajectory_builders ++ [true],
     all_trajectory_builder_options := s.all_trajectory_builder_options ++
       [⟨expected_sensor_ids, trajectory_options⟩] },
   trimmerEvents ++ pureLocEvents ++ initialPoseEvents)

/-- `MapBuilder::AddTrajectoryForDeserialization` (lines 171-179): same
dense id allocation, but pushes an empty placeholder builder (nothing is
wired to the collator) and records the given options. -/
def MapBuilder.AddTrajectoryForDeserialization (s : MapBuilderState)
    (options_with_sensor_ids : OptionsWithSensorIds) :
    Int × MapBuilderState :=
  ((s.trajectory_builders.length : Int),
   { s with
     trajectory_builders := s.trajectory_builders ++ [false],
     all_trajectory_builder_options := s.all_trajectory_builder_options ++
       [options_with_sensor_ids] })

/-- The external pose graph's query-visible data: `GetSubmapData` results
(submap payload plus global pose) and `GetLocalCurrentSubmap`. -/
structure PoseGraphData where
  submap_data : List (SubmapId × (Nat × Rigid3d))
  local_current_submap : Option Nat
deriving DecidableEq, Repr

/-- The filled `SubmapQuery::Response` (submap contents rendered at a
pose by `ToResponseProto`). -/
structure SubmapQueryResponse where
  submap_payload : Nat
  pose : Rigid3d
deriving DecidableEq, Repr

/-- `MapBuilder::SubmapToProto` (lines 197-215): validates trajectory
bounds, queries `GetSubmapData` and fills the response; returns the
error message (empty on success).  It only reads the pose graph. -/
def MapBuilder.SubmapToProto (s : MapBuilderState) (g : PoseGraphData)
    (submap_id : SubmapId) : String × Option SubmapQueryResponse :=
  if submap_id.trajectory_id < 0 ∨
      (s.trajectory_builders.length : Int) ≤ submap_id.trajectory_id then
    ("Requested submap from trajectory " ++ toString submap_id.trajectory_id ++
     " but there are only " ++ toString s.trajectory_builders.length ++
     " trajectories.", none)
  else
    match assocFind g.submap_data submap_id with
    | none =>
      ("Requested submap " ++ toString submap_id.submap_index ++
       " from trajectory " ++ toString submap_id.trajectory_id ++
       " but it does not exist: maybe it has been trimmed.", none)
    | some (payload, pose) => ("", some ⟨payload, pose⟩)

/-- `MapBuilder::LocalSubmapToProto` (lines 186-195): queries
`GetLocalCurrentSubmap`, fills the response at the identity pose;
returns the error message (empty on success). -/
def MapBuilder.LocalSubmapToProto (g : PoseGraphData) :
    String × Option SubmapQueryResponse :=
  match g.local_current_submap with
  | none =>
    ("Requested LocalSubmap  but it does not exist: maybe it has not been setted.",
     none)
  | some payload => ("", some ⟨payload, Rigid3dIdentity⟩)

/-- The ways a `LoadState` run dies: fatal `CHECK`s and uncaught
`std::out_of_range` from `std::map::at` / `MapById::at`. -/
inductive LoadError where
  | optionsIndexOutOfRange (trajectory_id : Int)
  | duplicateTrajectoryId (trajectory_id : Int)
  | remapMissing (trajectory_id : Int)
  | duplicateSubmapPose (submap_id : SubmapId)
  | duplicateNodePose (node_id : NodeId)
  | submapPoseMissing (submap_id : SubmapId)
  | nodePoseMissing (node_id : NodeId)
  | streamNotAtEof
deriving DecidableEq, Repr

/-- The deserializer's view of a saved stream: the two header summary
records, the remaining `SerializedData` records in stream order, and
whether the reader reports `eof` once the records are exhausted
(`false` models a truncated stream). -/
structure ProtoStreamInput where
  pose_graph : PoseGraphProto
  all_trajectory_builder_options : List OptionsWithSensorIds
  records : List SerializedRecord
  at_eof_after_records : Bool
deriving DecidableEq, Repr

/-- Result of the first `LoadState` loop (lines 230-245): the trajectory
summaries with their ids rewritten, the orchestrator state after the
`AddTrajectoryForDeserialization` calls, the old-to-new remapping table,
and the pose-graph events (freezes) emitted so far. -/
structure AllocResult where
  trajectories : List TrajectoryProto
  state : MapBuilderState
  remapping : List (Int × Int)
  events : List Event
deriving DecidableEq, Repr

/-- First `LoadState` loop (lines 230-245): for every trajectory of the
summary, look up its recorded options by the *old* id, allocate a new id
via `AddTrajectoryForDeserialization`, check the old id is not yet in
the remapping table, record old-to-new, rewrite the summary's id in
place, and freeze the new trajectory when `load_frozen_state`. -/
def allocateTrajectories (opts : List OptionsWithSensorIds)
    (load_frozen_state : Bool) :
    List TrajectoryProto → MapBuilderState → List (Int × Int) →
    Except LoadError AllocResult
  | [], s, m => .ok ⟨[], s, m, []⟩
  | tp :: rest, s, m =>
    match repeatedGet opts tp.trajectory_id with
    | none => .error (.optionsIndexOutOfRange tp.trajectory_id)
    | some o =>
      match MapBuilder.AddTrajectoryForDeserialization s o with
      | (new_trajectory_id, s') =>
        if (assocFind m tp.trajectory_id).isSome then
          .error (.duplicateTrajectoryId tp.trajectory_id)
        else
          match allocateTrajectories opts load_frozen_state rest s'
              (m ++ [(tp.trajectory_id, new_trajectory_id)]) with
          | .error e => .error e
          | .ok r =>
            .ok ⟨{ tp with trajectory_id := new_trajectory_id } :: r.trajectories,
                 r.state, r.remapping,
                 (if load_frozen_state then [Event.FreezeTrajectory new_trajectory_id]
                  else []) ++ r.events⟩

/-- Remap one constraint's submap and node trajectory ids through the
table (lines 248-253); a missing key is `std::map::at` throwing. -/
def remapConstraint (m : List (Int × Int)) (c : ConstraintProto) :
    Except LoadError ConstraintProto :=
  match assocFind m c.submap_id.trajectory_id with
  | none => .error (.remapMissing c.submap_id.trajectory_id)
  | some sid =>
    match assocFind m c.node_id.trajectory_id with
    | none => .error (.remapMissing c.node_id.trajectory_id)
    | some nid =>
      .ok { c with
            submap_id := { c.submap_id with trajectory_id := sid },
            node_id := { c.node_id with trajectory_id := nid } }

/-- Remap every constraint of the summary (lines 248-253). -/
def remapConstraintList (m : List (Int × Int)) :
    List ConstraintProto → Except LoadError (List ConstraintProto)
  | [] => .ok []
  | c :: rest =>
    match remapConstraint m c with
    | .error e => .error e
    | .ok c' =>
      match remapConstraintList m rest with
      | .error e => .error e
      | .ok rest' => .ok (c' :: rest')

/-- `MapById::Insert`: fatal `CHECK` on a duplicate key. -/
def mapByIdInsert {α : Type} [DecidableEq α] (t : List (α × Rigid3d))
    (k : α) (p : Rigid3d) : Option (List (α × Rigid3d)) :=
  if (assocFind t k).isSome then none else some (t ++ [(k, p)])

/-- Build the `submap_poses` table (lines 254-264): iterate the (already
id-rewritten) trajectory summaries and insert each submap's global pose
under `SubmapId(trajectory_proto.trajectory_id, submap_index)`. -/
def buildSubmapPoses :
    List TrajectoryProto → List (SubmapId × Rigid3d) →
    Except LoadError (List (SubmapId × Rigid3d))
  | [], t => .ok t
  | tp :: rest, t =>
    match buildSubmapPosesOne tp.trajectory_id tp.submap t with
    | .error e => .error e
    | .ok t' => buildSubmapPoses rest t'
where
  /-- Inner loop over one trajectory's submap summaries. -/
  buildSubmapPosesOne (tid : Int) :
      List TrajectorySubmapProto → List (SubmapId × Rigid3d) →
      Except LoadError (List (SubmapId × Rigid3d))
    | [], t => .ok t
    | sm :: rest, t =>
      match mapByIdInsert t (SubmapId.mk tid sm.submap_index) sm.pose with
      | none => .error (.duplicateSubmapPose (SubmapId.mk tid sm.submap_index))
      | some t' => buildSubmapPosesOne tid rest t'

/-- Build the `node_poses` table (lines 266-274): iterate the (already
id-rewritten) trajectory summaries and insert each node's global pose
under `NodeId(trajectory_proto.trajectory_id, node_index)`. -/
def buildNodePoses :
    List TrajectoryProto → List (NodeId × Rigid3d) →
    Except LoadError (List (NodeId × Rigid3d))
  | [], t => .ok t
  | tp :: rest, t =>
    match buildNodePosesOne tp.trajectory_id tp.node t with
    | .error e => .error e
    | .ok t' => buildNodePoses rest t'
where
  /-- Inner loop over one trajectory's node summaries. -/
  buildNodePosesOne (tid : Int) :
      List TrajectoryNodeProto → List (NodeId × Rigid3d) →
      Except LoadError (List (NodeId × Rigid3d))
    | [], t => .ok t
    | nd :: rest, t =>
      match mapByIdInsert t (NodeId.mk tid nd.node_index) nd.pose with
      | none => .error (.duplicateNodePose (NodeId.mk tid nd.node_index))
      | some t' => buildNodePosesOne tid rest t'

/-- Lines 276-280: set the global pose of every landmark of the summary. -/
def landmarkPoseEvents (ps : List LandmarkPoseProto) : List Event :=
  ps.map fun l => Event.SetLandmarkPose l.landmark_id l.global_pose

/-- One iteration of the record-stream loop (lines 283-353): the events
it emits, or the abort it dies with. -/
def processRecord (load_frozen_state : Bool) (m : List (Int × Int))
    (submap_poses : List (SubmapId × Rigid3d))
    (node_poses : List (NodeId × Rigid3d)) :
    SerializedRecord → Except LoadError (List Event)
  | .kPoseGraph _ =>
    .ok [Event.LogError "Found multiple serialized `PoseGraph`. Serialized stream likely corrupt!."]
  | .kAllTrajectoryBuilderOptions _ =>
    .ok [Event.LogError "Found multiple serialized `AllTrajectoryBuilderOptions`. Serialized stream likely corrupt!."]
  | .kSubmap submap_id payload =>
    match assocFind m submap_id.trajectory_id with
    | none => .error (.remapMissing submap_id.trajectory_id)
    | some tid =>
      let remapped : SubmapId := { submap_id with trajectory_id := tid }
      match assocFind submap_poses remapped with
      | none => .error (.submapPoseMissing remapped)
      | some pose => .ok [Event.AddSubmapFromProto pose remapped payload]
  | .kNode node_id payload =>
    match assocFind m node_id.trajectory_id with
    | none => .error (.remapMissing node_id.trajectory_id)
    | some tid =>
      let remapped : NodeId := { node_id with trajectory_id := tid }
      match assocFind node_poses remapped with
      | none => .error (.nodePoseMissing remapped)
      | some pose => .ok [Event.AddNodeFromProto pose remapped payload]
  | .kTrajectoryData trajectory_id payload =>
    match assocFind m trajectory_id with
    | none => .error (.remapMissing trajectory_id)
    | some tid => .ok [Event.SetTrajectoryDataFromProto tid payload]
  | .kImuData trajectory_id payload =>
    if load_frozen_state then .ok []
    else
      match assocFind m trajectory_id with
      | none => .error (.remapMissing trajectory_id)
      | some tid => .ok [Event.AddImuData tid payload]
  | .kOdometryData trajectory_id payload =>
    if load_frozen_state then .ok []
    else
      match assocFind m trajectory_id with
      | none => .error (.remapMissing trajectory_id)
      | some tid => .ok [Event.AddOdometryData tid payload]
  | .kFixedFramePoseData trajectory_id payload =>
    if load_frozen_state then .ok []
    else
      match assocFind m trajectory_id with
      | none => .error (.remapMissing trajectory_id)
      | some tid => .ok [Event.AddFixedFramePoseData tid payload]
  | .kLandmarkData trajectory_id payload =>
    if load_frozen_state then .ok []
    else
      match assocFind m trajectory_id with
      | none => .error (.remapMissing trajectory_id)
      | some tid => .ok [Event.AddLandmarkData tid payload]
  | .kUnknown typeName =>
    .ok [Event.LogWarning ("Skipping unknown message type in stream: " ++ typeName)]

/-- The record-stream loop (lines 282-353). -/
def processStream (load_frozen_state : Bool) (m : List (Int × Int))
    (submap_poses : List (SubmapId × Rigid3d))
    (node_poses : List (NodeId × Rigid3d)) :
    List SerializedRecord → Except LoadError (List Event)
  | [] => .ok []
  | r :: rest =>
    match processRecord load_frozen_state m submap_poses node_poses r with
    | .error e => .error e
    | .ok evs =>
      match processStream load_frozen_state m submap_poses node_poses rest with
      | .error e => .error e
      | .ok evs' => .ok (evs ++ evs')

/-- Whether the tag keeps a constraint in the frozen replay loop
(lines 360-363 skip everything that is not `INTRA_SUBMAP`). -/
def isIntraSubmap (c : ConstraintProto) : Bool :=
  match c.tag with
  | .INTRA_SUBMAP => true
  | .INTER_SUBMAP => false

/-- The post-stream constraint phase (lines 355-376): frozen loads replay
each `INTRA_SUBMAP` constraint via `AddNodeToSubmap`; non-frozen loads
hand the full remapped list to `AddSerializedConstraints` once. -/
def constraintEvents (load_frozen_state : Bool)
    (constraints : List ConstraintProto) : List Event :=
  if load_frozen_state then
    (constraints.filter isIntraSubmap).map fun c =>
      Event.AddNodeToSubmap c.node_id c.submap_id
  else
    [Event.AddSerializedConstraints constraints]

/-- A finished load: the orchestrator state and the pose-graph events in
the order they were issued. -/
structure LoadOutput where
  state : MapBuilderState
  events : List Event
deriving DecidableEq, Repr

/-- `MapBuilder::LoadState` (lines 221-378). -/
def MapBuilder.LoadState (input : ProtoStreamInput)
    (load_frozen_state : Bool) (s : MapBuilderState) :
    Except LoadError LoadOutput :=
  match allocateTrajectories input.all_trajectory_builder_options
      load_frozen_state input.pose_graph.trajectory s [] with
  | .error e => .error e
  | .ok r =>
    match remapConstraintList r.remapping input.pose_graph.constraint with
    | .error e => .error e
    | .ok constraints =>
      match buildSubmapPoses r.trajectories [] with
      | .error e => .error e
      | .ok submap_poses =>
        match buildNodePoses r.trajectories [] with
        | .error e => .error e
        | .ok node_poses =>
          match processStream load_frozen_state r.remapping submap_poses
              node_poses input.records with
          | .error e => .error e
          | .ok streamEvents =>
            if input.at_eof_after_records then
              .ok ⟨r.state,
                   r.events ++
                   landmarkPoseEvents input.pose_graph.landmark_poses ++
                   streamEvents ++
                   constraintEvents load_frozen_state constraints⟩
            else .error .streamNotAtEof

/-- One parsed line of the landmark-poses text file of
`LoadStateLandmark` (lines 443-458): an integer index followed by seven
numbers. -/
structure LandmarkFileLine where
  index : Int
  value0 : ℚ
  value1 : ℚ
  value2 : ℚ
  value3 : ℚ
  value4 : ℚ
  value5 : ℚ
  value6 : ℚ
deriving DecidableEq, Repr

/-- Lines 441-459: each file line yields `SetLandmarkPose` keyed by the
decimal string of the index, at translation `(value0, value1, value2)`
and quaternion `(w, x, y, z) = (value6, value3, value4, value5)`. -/
def landmarkFileEvents (lines : List LandmarkFileLine) : List Event :=
  lines.map fun l =>
    Event.SetLandmarkPose (toString l.index)
      ⟨l.value0, l.value1, l.value2, l.value6, l.value3, l.value4, l.value5⟩

/-- `MapBuilder::LoadStateLandmark` (lines 380-556): textually the same
phases as `LoadState`, with the landmark-poses file applied right after
the summary's landmark poses. -/
def MapBuilder.LoadStateLandmark (input : ProtoStreamInput)
    (landmark_lines : List LandmarkFileLine)
    (load_frozen_state : Bool) (s : MapBuilderState) :
    Except LoadError LoadOutput :=
  match allocateTrajectories input.all_trajectory_builder_options
      load_frozen_state input.pose_graph.trajectory s [] with
  | .error e => .error e
  | .ok r =>
    match remapConstraintList r.remapping input.pose_graph.constraint with
    | .error e => .error e
    | .ok constraints =>
      match buildSubmapPoses r.trajectories [] with
      | .error e => .error e
      | .ok submap_poses =>
        match buildNodePoses r.trajectories [] with
        | .error e => .error e
        | .ok node_poses =>
          match processStream load_frozen_state r.remapping submap_poses
              node_poses input.records with
          | .error e => .error e
          | .ok streamEvents =>
            if input.at_eof_after_records then
              .ok ⟨r.state,
                   r.events ++
                   landmarkPoseEvents input.pose_graph.landmark_poses ++
                   landmarkFileEvents landmark_lines ++
                   streamEvents ++
                   constraintEvents load_frozen_state constraints⟩
            else .error .streamNotAtEof

/-- The remapping table a `LoadState` run computes (the `trajectory_remapping`
local of lines 230-245), exposed for specification. -/
def loadStateRemapping (input : ProtoStreamInput) (load_frozen_state : Bool)
    (s : MapBuilderState) : Except LoadError (List (Int × Int)) :=
  match allocateTrajectories input.all_trajectory_builder_options
      load_frozen_state input.pose_graph.trajectory s [] with
  | .error e => .error e
  | .ok r => .ok r.remapping

/-- The `submap_poses` table a `LoadState` run builds (lines 254-264),
exposed for specification. -/
def loadStateSubmapPoses (input : ProtoStreamInput) (load_frozen_state : Bool)
    (s : MapBuilderState) : Except LoadError (List (SubmapId × Rigid3d)) :=
  match allocateTrajectories input.all_trajectory_builder_options
      load_frozen_state input.pose_graph.trajectory s [] with
  | .error e => .error e
  | .ok r => buildSubmapPoses r.trajectories []

/-- The `node_poses` table a `LoadState` run builds (lines 266-274),
exposed for specification. -/
def loadStateNodePoses (input : ProtoStreamInput) (load_frozen_state : Bool)
    (s : MapBuilderState) : Except LoadError (List (NodeId × Rigid3d)) :=
  match allocateTrajectories input.all_trajectory_builder_options
      load_frozen_state input.pose_graph.trajectory s [] with
  | .error e => .error e
  | .ok r => buildNodePoses r.trajectories []

/-- `k` consecutive integer ids starting at `n`. -/
def freshIds : Nat → Nat → List Int
  | _, 0 => []
  | n, k + 1 => (n : Int) :: freshIds (n + 1) k

/-- Is the event a `FreezeTrajectory` call? -/
def isFreezeEvent : Event → Bool
  | .FreezeTrajectory _ => true
  | _ => false

/-- Is the event one of the two constraint-consuming pose-graph calls? -/
def isConstraintEvent : Event → Bool
  | .AddNodeToSubmap _ _ => true
  | .AddSerializedConstraints _ => true
  | _ => false

/-- Is the event a raw-sensor-data pose-graph call? -/
def isRawDataEvent : Event → Bool
  | .AddImuData _ _ => true
  | .AddOdometryData _ _ => true
  | .AddFixedFramePoseData _ _ => true
  | .AddLandmarkData _ _ => true
  | _ => false

/-- Is the event a node or submap registration from deserialized data? -/
def isAddEntityEvent : Event → Bool
  | .AddSubmapFromProto _ _ _ => true
  | .AddNodeFromProto _ _ _ => true
  | _ => false

/-- Is the event of a kind the record-stream loop can emit? -/
def isStreamEvent : Event → Bool
  | .AddSubmapFromProto _ _ _ => true
  | .AddNodeFromProto _ _ _ => true
  | .SetTrajectoryDataFromProto _ _ => true
  | .AddImuData _ _ => true
  | .AddOdometryData _ _ => true
  | .AddFixedFramePoseData _ _ => true
  | .AddLandmarkData _ _ => true
  | .LogError _ => true
  | .LogWarning _ => true
  | _ => false

/-- Is the event a log line (no pose-graph effect)? -/
def isLogEvent : Event → Bool
  | .LogError _ => true
  | .LogWarning _ => true
  | _ => false

/-- The pose-graph calls of a trace, log lines removed. -/
def graphEvents (evs : List Event) : List Event :=
  evs.filter fun e => !isLogEvent e

/-- A load result with the log lines of its trace removed. -/
def eraseLogs (x : Except LoadError LoadOutput) : Except LoadError LoadOutput :=
  match x with
  | .error e => .error e
  | .ok out => .ok ⟨out.state, graphEvents out.events⟩

/-- The keys under which `buildSubmapPoses` files the summary's submap
poses, in insertion order. -/
def submapPoseKeys (tps : List TrajectoryProto) : List SubmapId :=
  (tps.map fun tp =>
    tp.submap.map fun sm => SubmapId.mk tp.trajectory_id sm.submap_index).flatten

/-- The keys under which `buildNodePoses` files the summary's node
poses, in insertion order. -/
def nodePoseKeys (tps : List TrajectoryProto) : List NodeId :=
  (tps.map fun tp =>
    tp.node.map fun nd => NodeId.mk tp.trajectory_id nd.node_index).flatten

/-- One call of the trajectory-creation surface. -/
inductive TrajectoryCall where
  | builder (expected_sensor_ids : List String)
      (trajectory_options : TrajectoryBuilderOptions)
  | deserialization (options_with_sensor_ids : OptionsWithSensorIds)

/-- Apply one trajectory-creation call, returning the allocated id. -/
def applyTrajectoryCall (s : MapBuilderState) :
    TrajectoryCall → Int × MapBuilderState
  | .builder ids opts =>
    match MapBuilder.AddTrajectoryBuilder s ids opts with
    | (i, s', _) => (i, s')
  | .deserialization o => MapBuilder.AddTrajectoryForDeserialization s o

/-- Run a sequence of trajectory-creation calls, collecting the returned
ids in call order. -/
def runTrajectoryCalls (s : MapBuilderState) :
    List TrajectoryCall → List Int × MapBuilderState
  | [] => ([], s)
  | c :: cs =>
    match applyTrajectoryCall s c with
    | (i, s') =>
      match runTrajectoryCalls s' cs with
      | (is, s'') => (i :: is, s'')

/-- Number of trace events `LoadState` emits before the record stream is
processed: the freezes (frozen loads only) and the summary landmark
poses. -/
def summaryPrefixLen (input : ProtoStreamInput) (load_frozen_state : Bool) : Nat :=
  (if load_frozen_state then input.pose_graph.trajectory.length else 0) +
    input.pose_graph.landmark_poses.length

/-- A sample options record for concrete instances. -/
def exOptions : OptionsWithSensorIds := ⟨["scan"], ⟨false, false, none⟩⟩

/-- A sample pose for concrete instances. -/
def exPose : Rigid3d := ⟨1, 2, 3, 1, 0, 0, 0⟩

/-- A minimal well-terminated saved stream: one trajectory (saved id 0)
with one submap and one node, one `INTRA_SUBMAP` constraint, no
landmarks, and one streamed submap record. -/
def exInput : ProtoStreamInput :=
  { pose_graph :=
      { trajectory := [⟨0, [⟨0, exPose⟩], [⟨0, exPose⟩]⟩],
        constraint := [⟨⟨0, 0⟩, ⟨0, 0⟩, .INTRA_SUBMAP, 7⟩],
        landmark_poses := [] },
    all_trajectory_builder_options := [exOptions],
    records := [.kSubmap ⟨0, 0⟩ 5],
    at_eof_after_records := true }

/-- `exInput` with the end-of-stream confirmation missing (truncation). -/
def exInputTrunc : ProtoStreamInput :=
  { exInput with at_eof_after_records := false }

/-- An orchestrator that already owns one live trajectory (id 0). -/
def exStateOneLive : MapBuilderState := ⟨[true], [exOptions], false⟩

/-- The result of loading `exInput` non-frozen into a fresh orchestrator. -/
def exOut1 : LoadOutput :=
  ⟨⟨[false], [exOptions], false⟩,
   [Event.AddSubmapFromProto exPose ⟨0, 0⟩ 5,
    Event.AddSerializedConstraints [⟨⟨0, 0⟩, ⟨0, 0⟩, .INTRA_SUBMAP, 7⟩]]⟩

/-- The result of loading `exInput` frozen into a fresh orchestrator. -/
def exOutFrozen : LoadOutput :=
  ⟨⟨[false], [exOptions], false⟩,
   [Event.FreezeTrajectory 0,
    Event.AddSubmapFromProto exPose ⟨0, 0⟩ 5,
    Event.AddNodeToSubmap ⟨0, 0⟩ ⟨0, 0⟩]⟩

/-- The first-loop result of loading `exInput` (non-frozen) into
`exStateOneLive`: saved trajectory 0 is remapped to fresh id 1. -/
def exAlloc : AllocResult :=
  ⟨[⟨1, [⟨0, exPose⟩], [⟨0, exPose⟩]⟩],
   ⟨[true, false], [exOptions, exOptions], false⟩,
   [(0, 1)], []⟩

/-- A successful association-list lookup means the pair is recorded. -/
theorem assocFind_eq_some_mem {α β : Type} [DecidableEq α] :
    ∀ (l : List (α × β)) (k : α) (v : β), assocFind l k = some v → (k, v) ∈ l := by
  intro l
  induction l with
  | nil => intro k v h; simp [assocFind] at h
  | cons p rest ih =>
    intro k v h
    obtain ⟨a, b⟩ := p
    simp only [assocFind] at h
    by_cases hak : a = k
    · subst hak
      rw [if_pos rfl] at h
      cases h
      exact List.mem_cons_self _ _
    · rw [if_neg hak] at h
      exact List.mem_cons_of_mem _ (ih k v h)

/-- `freshIds` yields as many ids as requested. -/
theorem freshIds_length (n k : Nat) : (freshIds n k).length = k := by
  induction k generalizing n with
  | zero => rfl
  | succ k ih => simpa [freshIds] using ih (n + 1)

/-- Every id in `freshIds n k` lies in `[n, n + k)`. -/
theorem mem_freshIds_bounds {a : Int} :
    ∀ {k n : Nat}, a ∈ freshIds n k → (n : Int) ≤ a ∧ a < (n : Int) + (k : Int) := by
  intro k
  induction k with
  | zero => intro n h; simp [freshIds] at h
  | succ k ih =>
    intro n h
    simp only [freshIds, List.mem_cons] at h
    rcases h with h | h
    · subst h
      constructor
      · exact le_refl _
      · push_cast; omega
    · have hb := ih h
      push_cast at hb ⊢
      omega

/-- What a successful first `LoadState` loop produces: the orchestrator
grows by one placeholder builder per summary trajectory, the remapping
table records the saved ids against consecutive fresh ids, the freezes
are emitted (in allocation order) exactly when `load_frozen_state`, and
the summary's trajectory ids are rewritten to the fresh ids with submap
and node lists untouched. -/
theorem allocateTrajectories_ok (opts : List OptionsWithSensorIds) (f : Bool) :
    ∀ (tps : List TrajectoryProto) (s : MapBuilderState) (m : List (Int × Int))
      (r : AllocResult),
      allocateTrajectories opts f tps s m = .ok r →
      r.state.trajectory_builders =
          s.trajectory_builders ++ List.replicate tps.length false ∧
      r.state.use_trajectory_builder_3d = s.use_trajectory_builder_3d ∧
      r.remapping = m ++ List.zip (tps.map TrajectoryProto.trajectory_id)
          (freshIds s.trajectory_builders.length tps.length) ∧
      r.events = (if f then (freshIds s.trajectory_builders.length
          tps.length).map Event.FreezeTrajectory else []) ∧
      r.trajectories.map TrajectoryProto.trajectory_id =
          freshIds s.trajectory_builders.length tps.length ∧
      r.trajectories.map TrajectoryProto.submap = tps.map TrajectoryProto.submap ∧
      r.trajectories.map TrajectoryProto.node = tps.map TrajectoryProto.node := by
  intro tps
  induction tps with
  | nil =>
    intro s m r h
    simp only [allocateTrajectories] at h
    cases h
    simp [freshIds]
  | cons tp rest ih =>
    intro s m r h
    simp only [allocateTrajectories, MapBuilder.AddTrajectoryForDeserialization] at h
    cases hopt : repeatedGet opts tp.trajectory_id with
    | none => rw [hopt] at h; cases h
    | some o =>
      rw [hopt] at h
      simp only at h
      by_cases hdup : (assocFind m tp.trajectory_id).isSome
      · rw [if_pos hdup] at h; cases h
      · rw [if_neg hdup] at h
        cases hrec : allocateTrajectories opts f rest
            { s with
              trajectory_builders := s.trajectory_builders ++ [false],
              all_trajectory_builder_options :=
                s.all_trajectory_builder_options ++ [o] }
            (m ++ [(tp.trajectory_id, (s.trajectory_builders.length : Int))]) with
        | error e => rw [hrec] at h; cases h
        | ok r' =>
          rw [hrec] at h
          simp only at h
          cases h
          obtain ⟨h1, h2, h3, h4, h5, h6, h7⟩ := ih _ _ _ hrec
          simp only [List.length_append, List.length_singleton] at h1 h3 h4 h5
          refine ⟨?_, h2, ?_, ?_, ?_, ?_, ?_⟩
          · rw [h1]
            simp [List.replicate_succ, List.append_assoc]
          · rw [h3]
            simp [freshIds, List.zip_cons_cons, List.append_assoc]
          · rw [h4]
            cases f <;> simp [freshIds]
          · simp only [List.map_cons, h5, freshIds]
          · simp only [List.map_cons, h6]
          · simp only [List.map_cons, h7]

/-- Inversion for a successful `LoadState`: every phase succeeded, the
stream ended at `eof`, and the output is assembled from the phases. -/
theorem LoadState_ok_elim {input : ProtoStreamInput} {f : Bool}
    {s : MapBuilderState} {out : LoadOutput}
    (h : MapBuilder.LoadState input f s = .ok out) :
    ∃ r constraints submap_poses node_poses streamEvents,
      allocateTrajectories input.all_trajectory_builder_options f
          input.pose_graph.trajectory s [] = .ok r ∧
      remapConstraintList r.remapping input.pose_graph.constraint = .ok constraints ∧
      buildSubmapPoses r.trajectories [] = .ok submap_poses ∧
      buildNodePoses r.trajectories [] = .ok node_poses ∧
      processStream f r.remapping submap_poses node_poses input.records =
          .ok streamEvents ∧
      input.at_eof_after_records = true ∧
      out = ⟨r.state,
             r.events ++ landmarkPoseEvents input.pose_graph.landmark_poses ++
             streamEvents ++ constraintEvents f constraints⟩ := by
  unfold MapBuilder.LoadState at h
  cases h1 : allocateTrajectories input.all_trajectory_builder_options f
      input.pose_graph.trajectory s [] with
  | error e => rw [h1] at h; cases h
  | ok r =>
    rw [h1] at h
    dsimp only at h
    cases h2 : remapConstraintList r.remapping input.pose_graph.constraint with
    | error e => rw [h2] at h; cases h
    | ok cs =>
      rw [h2] at h
      dsimp only at h
      cases h3 : buildSubmapPoses r.trajectories [] with
      | error e => rw [h3] at h; cases h
      | ok sp =>
        rw [h3] at h
        dsimp only at h
        cases h4 : buildNodePoses r.trajectories [] with
        | error e => rw [h4] at h; cases h
        | ok np =>
          rw [h4] at h
          dsimp only at h
          cases h5 : processStream f r.remapping sp np input.records with
          | error e => rw [h5] at h; cases h
          | ok se =>
            rw [h5] at h
            dsimp only at h
            cases he : input.at_eof_after_records with
            | false => rw [he] at h; simp at h
            | true =>
              rw [he] at h
              simp only [if_true] at h
              cases h
              exact ⟨r, cs, sp, np, se, rfl, h2, h3, h4, h5, rfl, rfl⟩

/-- `processStream` splits over list append. -/
theorem processStream_append (f : Bool) (m : List (Int × Int))
    (sp : List (SubmapId × Rigid3d)) (np : List (NodeId × Rigid3d)) :
    ∀ xs ys, processStream f m sp np (xs ++ ys) =
      match processStream f m sp np xs with
      | .error e => .error e
      | .ok a =>
        match processStream f m sp np ys with
        | .error e => .error e
        | .ok b => .ok (a ++ b) := by
  intro xs ys
  induction xs with
  | nil =>
    simp only [List.nil_append, processStream]
    cases processStream f m sp np ys <;> simp
  | cons x xs ih =>
    simp only [List.cons_append, processStream]
    cases processRecord f m sp np x with
    | error e => simp
    | ok evs =>
      simp only
      simp only [List.append_eq] at ih ⊢
      rw [ih]
      cases processStream f m sp np xs with
      | error e => simp
      | ok a =>
        cases processStream f m sp np ys <;> simp [List.append_assoc]

/-- Every event a stream record can emit. -/
theorem processRecord_events_kind {f : Bool} {m : List (Int × Int)}
    {sp : List (SubmapId × Rigid3d)} {np : List (NodeId × Rigid3d)}
    {rec : SerializedRecord} {evs : List Event}
    (h : processRecord f m sp np rec = .ok evs) :
    ∀ e ∈ evs, isStreamEvent e = true := by
  intro e he
  cases rec <;> simp only [processRecord] at h <;> try (repeat' split at h)
  all_goals (try cases h)
  all_goals simp_all [isStreamEvent]

/-- Every event a record stream can emit. -/
theorem processStream_events_kind {f : Bool} {m : List (Int × Int)}
    {sp : List (SubmapId × Rigid3d)} {np : List (NodeId × Rigid3d)} :
    ∀ {l : List SerializedRecord} {evs : List Event},
      processStream f m sp np l = .ok evs →
      ∀ e ∈ evs, isStreamEvent e = true := by
  intro l
  induction l with
  | nil =>
    intro evs h e he
    simp only [processStream] at h
    cases h
    simp at he
  | cons x xs ih =>
    intro evs h e he
    simp only [processStream] at h
    cases h1 : processRecord f m sp np x with
    | error er => rw [h1] at h; cases h
    | ok a =>
      rw [h1] at h
      cases h2 : processStream f m sp np xs with
      | error er => rw [h2] at h; cases h
      | ok b =>
        rw [h2] at h
        cases h
        rcases List.mem_append.mp he with hm | hm
        · exact processRecord_events_kind h1 e hm
        · exact ih h2 e hm

/-- A frozen stream loop emits no raw-sensor-data call. -/
theorem processRecord_frozen_no_raw {m : List (Int × Int)}
    {sp : List (SubmapId × Rigid3d)} {np : List (NodeId × Rigid3d)}
    {rec : SerializedRecord} {evs : List Event}
    (h : processRecord true m sp np rec = .ok evs) :
    ∀ e ∈ evs, isRawDataEvent e = false := by
  intro e he
  cases rec <;> simp only [processRecord] at h <;> try (repeat' split at h)
  all_goals (try cases h)
  all_goals simp_all [isRawDataEvent]

/-- A frozen record stream emits no raw-sensor-data call. -/
theorem processStream_frozen_no_raw {m : List (Int × Int)}
    {sp : List (SubmapId × Rigid3d)} {np : List (NodeId × Rigid3d)} :
    ∀ {l : List SerializedRecord} {evs : List Event},
      processStream true m sp np l = .ok evs →
      ∀ e ∈ evs, isRawDataEvent e = false := by
  intro l
  induction l with
  | nil =>
    intro evs h e he
    simp only [processStream] at h
    cases h
    simp at he
  | cons x xs ih =>
    intro evs h e he
    simp only [processStream] at h
    cases h1 : processRecord true m sp np x with
    | error er => rw [h1] at h; cases h
    | ok a =>
      rw [h1] at h
      cases h2 : processStream true m sp np xs with
      | error er => rw [h2] at h; cases h
      | ok b =>
        rw [h2] at h
        cases h
        rcases List.mem_append.mp he with hm | hm
        · exact processRecord_frozen_no_raw h1 e hm
        · exact ih h2 e hm

/-- Stream-loop events are not freezes. -/
theorem streamEvent_not_freeze {e : Event} (h : isStreamEvent e = true) :
    isFreezeEvent e = false := by
  cases e <;> simp_all [isStreamEvent, isFreezeEvent]

/-- Stream-loop events are not constraint-consuming calls. -/
theorem streamEvent_not_constraint {e : Event} (h : isStreamEvent e = true) :
    isConstraintEvent e = false := by
  cases e <;> simp_all [isStreamEvent, isConstraintEvent]

/-- Keys filed by the inner submap-pose loop, in order. -/
theorem buildSubmapPosesOne_keys (tid : Int) :
    ∀ (sms : List TrajectorySubmapProto) (t t' : List (SubmapId × Rigid3d)),
      buildSubmapPoses.buildSubmapPosesOne tid sms t = .ok t' →
      t'.map Prod.fst =
        t.map Prod.fst ++ sms.map (fun sm => SubmapId.mk tid sm.submap_index) := by
  intro sms
  induction sms with
  | nil =>
    intro t t' h
    simp only [buildSubmapPoses.buildSubmapPosesOne] at h
    cases h
    simp
  | cons sm rest ih =>
    intro t t' h
    simp only [buildSubmapPoses.buildSubmapPosesOne, mapByIdInsert] at h
    by_cases hd : (assocFind t (SubmapId.mk tid sm.submap_index)).isSome
    · rw [if_pos hd] at h; cases h
    · rw [if_neg hd] at h
      simp only at h
      rw [ih _ _ h]
      simp [List.append_assoc]

/-- Keys filed by `buildSubmapPoses`, in order. -/
theorem buildSubmapPoses_keys :
    ∀ (tps : List TrajectoryProto) (t t' : List (SubmapId × Rigid3d)),
      buildSubmapPoses tps t = .ok t' →
      t'.map Prod.fst = t.map Prod.fst ++ submapPoseKeys tps := by
  intro tps
  induction tps with
  | nil =>
    intro t t' h
    simp only [buildSubmapPoses] at h
    cases h
    simp [submapPoseKeys]
  | cons tp rest ih =>
    intro t t' h
    simp only [buildSubmapPoses] at h
    cases h1 : buildSubmapPoses.buildSubmapPosesOne tp.trajectory_id tp.submap t with
    | error e => rw [h1] at h; cases h
    | ok tmid =>
      rw [h1] at h
      simp only at h
      rw [ih _ _ h, buildSubmapPosesOne_keys _ _ _ _ h1]
      simp [submapPoseKeys, List.append_assoc]

/-- Keys filed by the inner node-pose loop, in order. -/
theorem buildNodePosesOne_keys (tid : Int) :
    ∀ (nds : List TrajectoryNodeProto) (t t' : List (NodeId × Rigid3d)),
      buildNodePoses.buildNodePosesOne tid nds t = .ok t' →
      t'.map Prod.fst =
        t.map Prod.fst ++ nds.map (fun nd => NodeId.mk tid nd.node_index) := by
  intro nds
  induction nds with
  | nil =>
    intro t t' h
    simp only [buildNodePoses.buildNodePosesOne] at h
    cases h
    simp
  | cons nd rest ih =>
    intro t t' h
    simp only [buildNodePoses.buildNodePosesOne, mapByIdInsert] at h
    by_cases hd : (assocFind t (NodeId.mk tid nd.node_index)).isSome
    · rw [if_pos hd] at h; cases h
    · rw [if_neg hd] at h
      simp only at h
      rw [ih _ _ h]
      simp [List.append_assoc]

/-- Keys filed by `buildNodePoses`, in order. -/
theorem buildNodePoses_keys :
    ∀ (tps : List TrajectoryProto) (t t' : List (NodeId × Rigid3d)),
      buildNodePoses tps t = .ok t' →
      t'.map Prod.fst = t.map Prod.fst ++ nodePoseKeys tps := by
  intro tps
  induction tps with
  | nil =>
    intro t t' h
    simp only [buildNodePoses] at h
    cases h
    simp [nodePoseKeys]
  | cons tp rest ih =>
    intro t t' h
    simp only [buildNodePoses] at h
    cases h1 : buildNodePoses.buildNodePosesOne tp.trajectory_id tp.node t with
    | error e => rw [h1] at h; cases h
    | ok tmid =>
      rw [h1] at h
      simp only at h
      rw [ih _ _ h, buildNodePosesOne_keys _ _ _ _ h1]
      simp [nodePoseKeys, List.append_assoc]

/-- In a successful load trace, the constraint-consuming calls are
exactly the post-stream constraint phase over the remapped constraints. -/
theorem loadState_constraint_filter {input : ProtoStreamInput} {f : Bool}
    {s : MapBuilderState} {out : LoadOutput}
    (h : MapBuilder.LoadState input f s = .ok out) :
    ∃ r cs,
      allocateTrajectories input.all_trajectory_builder_options f
          input.pose_graph.trajectory s [] = .ok r ∧
      remapConstraintList r.remapping input.pose_graph.constraint = .ok cs ∧
      out.events.filter isConstraintEvent = constraintEvents f cs := by
  obtain ⟨r, cs, sp, np, se, h1, h2, h3, h4, h5, he, hout⟩ := LoadState_ok_elim h
  refine ⟨r, cs, h1, h2, ?_⟩
  subst hout
  simp only [List.filter_append]
  have hfr : r.events.filter isConstraintEvent = [] := by
    obtain ⟨_, _, _, hev, _, _, _⟩ := allocateTrajectories_ok _ _ _ _ _ _ h1
    rw [hev]
    cases f
    · simp
    · rw [List.filter_eq_nil_iff]
      intro a ha
      rcases List.mem_map.mp ha with ⟨i, _, hi⟩
      subst hi
      simp [isConstraintEvent]
  have hlm : (landmarkPoseEvents input.pose_graph.landmark_poses).filter
      isConstraintEvent = [] := by
    rw [List.filter_eq_nil_iff]
    intro a ha
    rcases List.mem_map.mp ha with ⟨l, _, hl⟩
    subst hl
    simp [isConstraintEvent]
  have hse : se.filter isConstraintEvent = [] := by
    rw [List.filter_eq_nil_iff]
    intro a ha
    have := streamEvent_not_constraint (processStream_events_kind h5 a ha)
    simp [this]
  have hce : (constraintEvents f cs).filter isConstraintEvent =
      constraintEvents f cs := by
    rw [List.filter_eq_self]
    intro a ha
    cases f <;> simp only [constraintEvents] at ha
    · rcases List.mem_singleton.mp ha with rfl
      simp [isConstraintEvent]
    · rcases List.mem_map.mp ha with ⟨c, _, hc⟩
      subst hc
      simp [isConstraintEvent]
  rw [hfr, hlm, hse, hce]
  simp

/-- In a successful frozen load trace, no raw-sensor-data call occurs. -/
theorem loadState_frozen_no_raw_filter {input : ProtoStreamInput}
    {s : MapBuilderState} {out : LoadOutput}
    (h : MapBuilder.LoadState input true s = .ok out) :
    out.events.filter isRawDataEvent = [] := by
  obtain ⟨r, cs, sp, np, se, h1, h2, h3, h4, h5, he, hout⟩ := LoadState_ok_elim h
  subst hout
  simp only [List.filter_append]
  have hfr : r.events.filter isRawDataEvent = [] := by
    obtain ⟨_, _, _, hev, _, _, _⟩ := allocateTrajectories_ok _ _ _ _ _ _ h1
    rw [hev]
    simp only [if_true]
    rw [List.filter_eq_nil_iff]
    intro a ha
    rcases List.mem_map.mp ha with ⟨i, _, hi⟩
    subst hi
    simp [isRawDataEvent]
  have hlm : (landmarkPoseEvents input.pose_graph.landmark_poses).filter
      isRawDataEvent = [] := by
    rw [List.filter_eq_nil_iff]
    intro a ha
    rcases List.mem_map.mp ha with ⟨l, _, hl⟩
    subst hl
    simp [isRawDataEvent]
  have hse : se.filter isRawDataEvent = [] := by
    rw [List.filter_eq_nil_iff]
    intro a ha
    have := processStream_frozen_no_raw h5 a ha
    simp [this]
  have hce : (constraintEvents true cs).filter isRawDataEvent = [] := by
    simp only [constraintEvents, if_true]
    rw [List.filter_eq_nil_iff]
    intro a ha
    rcases List.mem_map.mp ha with ⟨c, _, hc⟩
    subst hc
    simp [isRawDataEvent]
  rw [hfr, hlm, hse, hce]
  simp

/-- A string that starts with a nonempty prefix is nonempty. -/
theorem append_left_ne_empty {a : String} (b : String) (h : a.length ≠ 0) :
    a ++ b ≠ "" := by
  intro hc
  apply h
  have hd := congrArg String.length hc
  rw [String.length_append, String.length_empty] at hd
  omega

/-- Ids returned by a run of trajectory-creation calls are consecutive
from the current builder count. -/
theorem runTrajectoryCalls_ids :
    ∀ (cs : List TrajectoryCall) (s : MapBuilderState),
      (runTrajectoryCalls s cs).1 =
        freshIds s.trajectory_builders.length cs.length := by
  intro cs
  induction cs with
  | nil => intro s; simp [runTrajectoryCalls, freshIds]
  | cons c cs ih =>
    intro s
    have hid : (applyTrajectoryCall s c).1 = (s.trajectory_builders.length : Int) := by
      cases c <;>
        simp [applyTrajectoryCall, MapBuilder.AddTrajectoryBuilder,
          MapBuilder.AddTrajectoryForDeserialization]
    have hlen : (applyTrajectoryCall s c).2.trajectory_builders.length =
        s.trajectory_builders.length + 1 := by
      cases c <;>
        simp [applyTrajectoryCall, MapBuilder.AddTrajectoryBuilder,
          MapBuilder.AddTrajectoryForDeserialization]
    simp only [runTrajectoryCalls, freshIds]
    rw [← hid, ← hlen]
    cases happ : applyTrajectoryCall s c with
    | mk i s' =>
      cases hrun : runTrajectoryCalls s' cs with
      | mk is s'' =>
        simp only
        rw [happ] at hid hlen
        simp only at hid hlen
        have := ih s'
        rw [hrun] at this
        simp only at this
        simp [hid, hlen, this, happ]

/-- C9: for every interleaved sequence of `AddTrajectoryBuilder` and
`AddTrajectoryForDeserialization` calls on one orchestrator instance,
the returned trajectory ids are exactly 0, 1, 2, ... in call order: each
call returns the current number of trajectory builders and then grows it
by one, so ids are dense, start at 0, and are never reused. -/
theorem claim_trajectory_ids_dense :
    (∀ (s : MapBuilderState) (c : TrajectoryCall),
      (applyTrajectoryCall s c).1 = (s.trajectory_builders.length : Int) ∧
      (applyTrajectoryCall s c).2.trajectory_builders.length =
        s.trajectory_builders.length + 1) ∧
    (∀ (use3d : Bool) (cs : List TrajectoryCall),
      (runTrajectoryCalls (initialMapBuilderState use3d) cs).1 =
        freshIds 0 cs.length) := by
  constructor
  · intro s c
    constructor <;> cases c <;>
      simp [applyTrajectoryCall, MapBuilder.AddTrajectoryBuilder,
        MapBuilder.AddTrajectoryForDeserialization]
  · intro use3d cs
    have h := runTrajectoryCalls_ids cs (initialMapBuilderState use3d)
    simpa [initialMapBuilderState] using h

/-- C8: `SubmapToProto` returns the empty error string exactly when the
trajectory id is in bounds and the submap exists in the pose graph (and
then the response is filled); otherwise the string is a non-empty
diagnostic and no response is produced.  `LocalSubmapToProto` follows
the same empty-string-success convention.  Both are modelled as pure
functions of the pose graph's query data: they only read it and return
the message and response, mutating nothing. -/
theorem claim_submapToProto_convention :
    ∀ (s : MapBuilderState) (g : PoseGraphData) (submap_id : SubmapId),
      ((MapBuilder.SubmapToProto s g submap_id).1 = "" ↔
        (0 ≤ submap_id.trajectory_id ∧
         submap_id.trajectory_id < (s.trajectory_builders.length : Int) ∧
         (assocFind g.submap_data submap_id).isSome)) ∧
      ((MapBuilder.SubmapToProto s g submap_id).2.isSome ↔
        (MapBuilder.SubmapToProto s g submap_id).1 = "") ∧
      ((MapBuilder.LocalSubmapToProto g).1 = "" ↔
        g.local_current_submap.isSome) ∧
      ((MapBuilder.LocalSubmapToProto g).2.isSome ↔
        (MapBuilder.LocalSubmapToProto g).1 = "") := by
  intro s g sid
  have hmsg1 : ("Requested submap from trajectory " ++
      toString sid.trajectory_id ++ " but there are only " ++
      toString s.trajectory_builders.length ++ " trajectories.") ≠ "" := by
    intro hc
    have hd := congrArg String.length hc
    simp only [String.length_append, String.length_empty] at hd
    have hlit : (" trajectories." : String).length = 14 := by decide
    omega
  have hmsg2 : ("Requested submap " ++ toString sid.submap_index ++
      " from trajectory " ++ toString sid.trajectory_id ++
      " but it does not exist: maybe it has been trimmed.") ≠ "" := by
    intro hc
    have hd := congrArg String.length hc
    simp only [String.length_append, String.length_empty] at hd
    have hlit : (" but it does not exist: maybe it has been trimmed." : String).length
        = 50 := by decide
    omega
  refine ⟨?_, ?_, ?_, ?_⟩
  · unfold MapBuilder.SubmapToProto
    by_cases hb : sid.trajectory_id < 0 ∨
        (s.trajectory_builders.length : Int) ≤ sid.trajectory_id
    · rw [if_pos hb]
      simp only
      constructor
      · intro hx; exact absurd hx hmsg1
      · rintro ⟨hx1, hx2, _⟩
        rcases hb with hb | hb <;> omega
    · rw [if_neg hb]
      push_neg at hb
      cases hf : assocFind g.submap_data sid with
      | none =>
        simp only
        constructor
        · intro hx; exact absurd hx hmsg2
        · rintro ⟨_, _, hx⟩
          simp at hx
      | some pr =>
        obtain ⟨pl, ps⟩ := pr
        simp [hb.1, hb.2]
  · unfold MapBuilder.SubmapToProto
    by_cases hb : sid.trajectory_id < 0 ∨
        (s.trajectory_builders.length : Int) ≤ sid.trajectory_id
    · rw [if_pos hb]
      simp only [Option.isSome_none, Bool.false_eq_true, false_iff]
      intro hx; exact absurd hx hmsg1
    · rw [if_neg hb]
      cases hf : assocFind g.submap_data sid with
      | none =>
        simp only [Option.isSome_none, Bool.false_eq_true, false_iff]
        intro hx; exact absurd hx hmsg2
      | some pr =>
        obtain ⟨pl, ps⟩ := pr
        simp
  · unfold MapBuilder.LocalSubmapToProto
    cases hf : g.local_current_submap with
    | none =>
      simp only [Option.isSome_none, Bool.false_eq_true, iff_false]
      decide
    | some pl => simp
  · unfold MapBuilder.LocalSubmapToProto
    cases hf : g.local_current_submap with
    | none =>
      simp only [Option.isSome_none, Bool.false_eq_true, false_iff]
      decide
    | some pl => simp

/-- C5: `LoadState` succeeds only with the stream fully consumed and
end-of-stream confirmed; a truncated stream (no `eof` confirmation)
makes the load fail with an error; and the load path never wires a
trajectory for live sensor ingestion: every builder slot it creates is
the empty placeholder of `AddTrajectoryForDeserialization`, never an
adapter attached to the collator. -/
theorem claim_loadState_eof_and_no_adapter :
    ∀ (input : ProtoStreamInput) (f : Bool) (s : MapBuilderState),
      (∀ out, MapBuilder.LoadState input f s = .ok out →
        input.at_eof_after_records = true ∧
        out.state.trajectory_builders =
          s.trajectory_builders ++
            List.replicate input.pose_graph.trajectory.length false) ∧
      (input.at_eof_after_records = false →
        ∃ e, MapBuilder.LoadState input f s = .error e) ∧
      (∀ o, (MapBuilder.AddTrajectoryForDeserialization s o).2.trajectory_builders =
        s.trajectory_builders ++ [false]) := by
  intro input f s
  refine ⟨?_, ?_, ?_⟩
  · intro out h
    obtain ⟨r, cs, sp, np, se, h1, h2, h3, h4, h5, he, hout⟩ := LoadState_ok_elim h
    obtain ⟨hb, _, _, _, _, _, _⟩ := allocateTrajectories_ok _ _ _ _ _ _ h1
    subst hout
    exact ⟨he, hb⟩
  · intro he
    cases hr : MapBuilder.LoadState input f s with
    | error e => exact ⟨e, rfl⟩
    | ok out =>
      obtain ⟨_, _, _, _, _, _, _, _, _, _, he', _⟩ := LoadState_ok_elim hr
      rw [he] at he'
      cases he'
  · intro o
    simp [MapBuilder.AddTrajectoryForDeserialization]

/-- Witness for C5: the truncated example stream makes `LoadState` fail. -/
theorem claim_loadState_eof_and_no_adapter_witness :
    exInputTrunc.at_eof_after_records = false ∧
    (∃ e, MapBuilder.LoadState exInputTrunc false
      (initialMapBuilderState false) = .error e) :=
  ⟨rfl, (claim_loadState_eof_and_no_adapter exInputTrunc false
      (initialMapBuilderState false)).2.1 rfl⟩

/-- C4: in every successful `LoadState` with `load_frozen_state` set,
the trace begins with `FreezeTrajectory` on each newly allocated
trajectory id, in allocation order, before anything else; the rest of
the trace contains no freeze; and every `AddNodeFromProto` /
`AddSubmapFromProto` call lies in that rest, i.e. happens only after
every restored trajectory has been frozen. -/
theorem claim_loadState_freezes_first :
    ∀ (input : ProtoStreamInput) (s : MapBuilderState) (out : LoadOutput),
      MapBuilder.LoadState input true s = .ok out →
      ∃ rest,
        out.events =
          (freshIds s.trajectory_builders.length
            input.pose_graph.trajectory.length).map Event.FreezeTrajectory ++
            rest ∧
        (∀ e ∈ rest, isFreezeEvent e = false) ∧
        (∀ e ∈ out.events, isAddEntityEvent e = true → e ∈ rest) := by
  intro input s out h
  obtain ⟨r, cs, sp, np, se, h1, h2, h3, h4, h5, he, hout⟩ := LoadState_ok_elim h
  obtain ⟨_, _, _, hev, _, _, _⟩ := allocateTrajectories_ok _ _ _ _ _ _ h1
  simp only [if_true] at hev
  subst hout
  rw [hev]
  refine ⟨landmarkPoseEvents input.pose_graph.landmark_poses ++ se ++
      constraintEvents true cs, by simp [List.append_assoc], ?_, ?_⟩
  · intro e hemem
    rcases List.mem_append.mp hemem with hm | hm
    · rcases List.mem_append.mp hm with hm' | hm'
      · rcases List.mem_map.mp hm' with ⟨l, _, hl⟩
        subst hl
        rfl
      · exact streamEvent_not_freeze (processStream_events_kind h5 e hm')
    · simp only [constraintEvents, if_true] at hm
      rcases List.mem_map.mp hm with ⟨c, _, hc⟩
      subst hc
      rfl
  · intro e hemem hadd
    simp only [List.append_assoc] at hemem
    rcases List.mem_append.mp hemem with hm | hm
    · rcases List.mem_map.mp hm with ⟨i, _, hi⟩
      subst hi
      simp [isAddEntityEvent] at hadd
    · simpa [List.append_assoc] using hm

/-- Witness for C4 at a concrete frozen load. -/
theorem claim_loadState_freezes_first_witness :
    MapBuilder.LoadState exInput true (initialMapBuilderState false) =
      .ok exOutFrozen ∧
    (∃ rest,
      exOutFrozen.events =
        (freshIds (initialMapBuilderState false).trajectory_builders.length
          exInput.pose_graph.trajectory.length).map Event.FreezeTrajectory ++
          rest ∧
      (∀ e ∈ rest, isFreezeEvent e = false) ∧
      (∀ e ∈ exOutFrozen.events, isAddEntityEvent e = true → e ∈ rest)) :=
  ⟨rfl, claim_loadState_freezes_first exInput (initialMapBuilderState false)
      exOutFrozen rfl⟩

/-- C3: after the stream is exhausted, a successful frozen load's
constraint-consuming pose-graph calls are exactly one `AddNodeToSubmap`
per `INTRA_SUBMAP` constraint of the (remapped) summary, in order, none
for any `INTER_SUBMAP` constraint, and no `AddSerializedConstraints`
call; a successful non-frozen load's are exactly one
`AddSerializedConstraints` call carrying the full remapped constraint
list, and no `AddNodeToSubmap` call. -/
theorem claim_loadState_constraint_phase :
    ∀ (input : ProtoStreamInput) (f : Bool) (s : MapBuilderState)
      (out : LoadOutput) (m : List (Int × Int)) (cs : List ConstraintProto),
      MapBuilder.LoadState input f s = .ok out →
      loadStateRemapping input f s = .ok m →
      remapConstraintList m input.pose_graph.constraint = .ok cs →
      (f = true →
        out.events.filter isConstraintEvent =
          (cs.filter isIntraSubmap).map
            (fun c => Event.AddNodeToSubmap c.node_id c.submap_id)) ∧
      (f = false →
        out.events.filter isConstraintEvent =
          [Event.AddSerializedConstraints cs]) := by
  intro input f s out m cs h hm hcs
  obtain ⟨r, cs', h1, h2, hfil⟩ := loadState_constraint_filter h
  unfold loadStateRemapping at hm
  rw [h1] at hm
  cases hm
  rw [h2] at hcs
  cases hcs
  constructor <;> intro hf <;> subst hf <;>
    simpa [constraintEvents] using hfil

/-- Witness for C3 at a concrete non-frozen load. -/
theorem claim_loadState_constraint_phase_witness :
    MapBuilder.LoadState exInput false (initialMapBuilderState false) =
      .ok exOut1 ∧
    exOut1.events.filter isConstraintEvent =
      [Event.AddSerializedConstraints
        [⟨⟨0, 0⟩, ⟨0, 0⟩, .INTRA_SUBMAP, 7⟩]] :=
  ⟨rfl, (claim_loadState_constraint_phase exInput false
      (initialMapBuilderState false) exOut1 [(0, 0)]
      [⟨⟨0, 0⟩, ⟨0, 0⟩, .INTRA_SUBMAP, 7⟩] rfl rfl rfl).2 rfl⟩

/-- C7: with `load_frozen_state` set, every streamed imu, odometry,
fixed-frame-pose or landmark-data record is dropped with no pose-graph
call (and a successful frozen load's trace contains no raw-data call at
all); with `load_frozen_state` unset, each such record is forwarded,
with its trajectory id remapped through the table, to `AddImuData`,
`AddOdometryData`, `AddFixedFramePoseData` or `AddLandmarkData`
respectively. -/
theorem claim_loadState_raw_records :
    (∀ (m : List (Int × Int)) (sp : List (SubmapId × Rigid3d))
       (np : List (NodeId × Rigid3d)) (tid : Int) (payload : Nat),
      processRecord true m sp np (.kImuData tid payload) = .ok [] ∧
      processRecord true m sp np (.kOdometryData tid payload) = .ok [] ∧
      processRecord true m sp np (.kFixedFramePoseData tid payload) = .ok [] ∧
      processRecord true m sp np (.kLandmarkData tid payload) = .ok []) ∧
    (∀ (m : List (Int × Int)) (sp : List (SubmapId × Rigid3d))
       (np : List (NodeId × Rigid3d)) (tid t : Int) (payload : Nat),
      assocFind m tid = some t →
      processRecord false m sp np (.kImuData tid payload) =
        .ok [Event.AddImuData t payload] ∧
      processRecord false m sp np (.kOdometryData tid payload) =
        .ok [Event.AddOdometryData t payload] ∧
      processRecord false m sp np (.kFixedFramePoseData tid payload) =
        .ok [Event.AddFixedFramePoseData t payload] ∧
      processRecord false m sp np (.kLandmarkData tid payload) =
        .ok [Event.AddLandmarkData t payload]) ∧
    (∀ (input : ProtoStreamInput) (s : MapBuilderState) (out : LoadOutput),
      MapBuilder.LoadState input true s = .ok out →
      out.events.filter isRawDataEvent = []) := by
  refine ⟨?_, ?_, ?_⟩
  · intro m sp np tid payload
    exact ⟨rfl, rfl, rfl, rfl⟩
  · intro m sp np tid t payload hfind
    refine ⟨?_, ?_, ?_, ?_⟩ <;> simp [processRecord, hfind]
  · intro input s out h
    exact loadState_frozen_no_raw_filter h

/-- Witness for C7: a concrete remapping forwards a raw imu record to
the remapped trajectory. -/
theorem claim_loadState_raw_records_witness :
    assocFind [((0 : Int), (1 : Int))] 0 = some 1 ∧
    processRecord false [((0 : Int), (1 : Int))] [] [] (.kImuData 0 42) =
      .ok [Event.AddImuData 1 42] :=
  ⟨rfl, (claim_loadState_raw_records.2.1 [((0 : Int), (1 : Int))] [] []
      0 1 42 rfl).1⟩

/-- C6: a second pose-graph summary or trajectory-options summary record
in the stream is logged as a corruption, skipped without any pose-graph
call, and the load continues to completion: the load's result equals the
result on the same stream without the duplicate record, up to the extra
log line. -/
theorem claim_loadState_duplicate_summary :
    (∀ (f : Bool) (m : List (Int × Int)) (sp : List (SubmapId × Rigid3d))
       (np : List (NodeId × Rigid3d)) (p : PoseGraphProto)
       (o : List OptionsWithSensorIds),
      processRecord f m sp np (.kPoseGraph p) =
        .ok [Event.LogError "Found multiple serialized `PoseGraph`. Serialized stream likely corrupt!."] ∧
      processRecord f m sp np (.kAllTrajectoryBuilderOptions o) =
        .ok [Event.LogError "Found multiple serialized `AllTrajectoryBuilderOptions`. Serialized stream likely corrupt!."] ∧
      graphEvents [Event.LogError "Found multiple serialized `PoseGraph`. Serialized stream likely corrupt!."] = [] ∧
      graphEvents [Event.LogError "Found multiple serialized `AllTrajectoryBuilderOptions`. Serialized stream likely corrupt!."] = []) ∧
    (∀ (pg : PoseGraphProto) (opts : List OptionsWithSensorIds) (eof : Bool)
       (l1 l2 : List SerializedRecord) (rec : SerializedRecord)
       (f : Bool) (s : MapBuilderState),
      ((∃ p, rec = SerializedRecord.kPoseGraph p) ∨
       (∃ o, rec = SerializedRecord.kAllTrajectoryBuilderOptions o)) →
      eraseLogs (MapBuilder.LoadState ⟨pg, opts, l1 ++ rec :: l2, eof⟩ f s) =
        eraseLogs (MapBuilder.LoadState ⟨pg, opts, l1 ++ l2, eof⟩ f s)) := by
  constructor
  · intro f m sp np p o
    exact ⟨rfl, rfl, rfl, rfl⟩
  · intro pg opts eof l1 l2 rec f s hdup
    have hrec : ∀ (m : List (Int × Int)) (sp : List (SubmapId × Rigid3d))
        (np : List (NodeId × Rigid3d)), ∃ msg,
        processRecord f m sp np rec = .ok [Event.LogError msg] := by
      rcases hdup with ⟨p, rfl⟩ | ⟨o, rfl⟩ <;>
        exact fun m sp np => ⟨_, rfl⟩
    unfold MapBuilder.LoadState
    dsimp only
    cases h1 : allocateTrajectories opts f pg.trajectory s [] with
    | error e => rfl
    | ok r =>
      dsimp only
      cases h2 : remapConstraintList r.remapping pg.constraint with
      | error e => rfl
      | ok cs =>
        dsimp only
        cases h3 : buildSubmapPoses r.trajectories [] with
        | error e => rfl
        | ok sp =>
          dsimp only
          cases h4 : buildNodePoses r.trajectories [] with
          | error e => rfl
          | ok np =>
            dsimp only
            obtain ⟨msg, hmsg⟩ := hrec r.remapping sp np
            rw [processStream_append f r.remapping sp np l1 (rec :: l2),
                processStream_append f r.remapping sp np l1 l2]
            have hcons : processStream f r.remapping sp np (rec :: l2) =
                match processStream f r.remapping sp np l2 with
                | .error e => .error e
                | .ok b => .ok ([Event.LogError msg] ++ b) := by
              simp only [processStream, hmsg]
            rw [hcons]
            cases hL1 : processStream f r.remapping sp np l1 with
            | error e => rfl
            | ok a =>
              dsimp only
              cases hL2 : processStream f r.remapping sp np l2 with
              | error e => rfl
              | ok b =>
                dsimp only
                cases eof with
                | false => simp
                | true =>
                  simp [eraseLogs, graphEvents, List.filter_append, isLogEvent]

/-- Witness for C6 at a concrete stream with a duplicate summary record. -/
theorem claim_loadState_duplicate_summary_witness :
    eraseLogs (MapBuilder.LoadState
      ⟨exInput.pose_graph, exInput.all_trajectory_builder_options,
       [] ++ SerializedRecord.kPoseGraph exInput.pose_graph :: exInput.records,
       true⟩ false (initialMapBuilderState false)) =
    eraseLogs (MapBuilder.LoadState
      ⟨exInput.pose_graph, exInput.all_trajectory_builder_options,
       [] ++ exInput.records, true⟩ false (initialMapBuilderState false)) :=
  claim_loadState_duplicate_summary.2 exInput.pose_graph
    exInput.all_trajectory_builder_options true [] exInput.records
    (SerializedRecord.kPoseGraph exInput.pose_graph) false
    (initialMapBuilderState false) (Or.inl ⟨exInput.pose_graph, rfl⟩)

/-- C1: every trajectory of the summary gets a fresh id allocated by
`AddTrajectoryForDeserialization` (a placeholder builder slot appended
at the current count) with the old-to-new pair recorded in the remapping
table; the fresh ids continue densely from the current builder count, so
two sequential loads whose saved states both used trajectory id 0
receive two distinct, non-colliding new ids; and the only constraints
the pose graph ever receives are the ones rewritten through that table. -/
theorem claim_loadState_remapping :
    (∀ (input : ProtoStreamInput) (f : Bool) (s : MapBuilderState)
       (out : LoadOutput),
      MapBuilder.LoadState input f s = .ok out →
      ∃ r, allocateTrajectories input.all_trajectory_builder_options f
               input.pose_graph.trajectory s [] = .ok r ∧
        loadStateRemapping input f s = .ok r.remapping ∧
        r.remapping = List.zip
            (input.pose_graph.trajectory.map TrajectoryProto.trajectory_id)
            (freshIds s.trajectory_builders.length
              input.pose_graph.trajectory.length) ∧
        out.state = r.state ∧
        out.state.trajectory_builders =
          s.trajectory_builders ++
            List.replicate input.pose_graph.trajectory.length false) ∧
    (∀ (input₁ input₂ : ProtoStreamInput) (f₁ f₂ : Bool) (s : MapBuilderState)
       (out₁ : LoadOutput) (m₁ m₂ : List (Int × Int)) (n₁ n₂ : Int),
      MapBuilder.LoadState input₁ f₁ s = .ok out₁ →
      loadStateRemapping input₁ f₁ s = .ok m₁ →
      loadStateRemapping input₂ f₂ out₁.state = .ok m₂ →
      assocFind m₁ 0 = some n₁ →
      assocFind m₂ 0 = some n₂ →
      n₁ ≠ n₂) ∧
    (∀ (input : ProtoStreamInput) (f : Bool) (s : MapBuilderState)
       (out : LoadOutput) (m : List (Int × Int)) (cs : List ConstraintProto),
      MapBuilder.LoadState input f s = .ok out →
      loadStateRemapping input f s = .ok m →
      remapConstraintList m input.pose_graph.constraint = .ok cs →
      (∀ l, Event.AddSerializedConstraints l ∈ out.events → l = cs) ∧
      (∀ nid sid, Event.AddNodeToSubmap nid sid ∈ out.events →
        ∃ c ∈ cs, isIntraSubmap c = true ∧ c.node_id = nid ∧
          c.submap_id = sid)) := by
  refine ⟨?_, ?_, ?_⟩
  · intro input f s out h
    obtain ⟨r, cs, sp, np, se, h1, h2, h3, h4, h5, he, hout⟩ := LoadState_ok_elim h
    obtain ⟨hb, _, hm, _, _, _, _⟩ := allocateTrajectories_ok _ _ _ _ _ _ h1
    refine ⟨r, h1, ?_, ?_, ?_, ?_⟩
    · unfold loadStateRemapping
      rw [h1]
    · simpa using hm
    · subst hout; rfl
    · subst hout; simpa using hb
  · intro input₁ input₂ f₁ f₂ s out₁ m₁ m₂ n₁ n₂ h1 hm1 hm2 hf1 hf2
    obtain ⟨r₁, cs₁, sp₁, np₁, se₁, ha1, _, _, _, _, _, hout₁⟩ := LoadState_ok_elim h1
    obtain ⟨hb1, _, hmm1, _, _, _, _⟩ := allocateTrajectories_ok _ _ _ _ _ _ ha1
    unfold loadStateRemapping at hm1
    rw [ha1] at hm1
    cases hm1
    have hex2 : ∃ r₂,
        allocateTrajectories input₂.all_trajectory_builder_options f₂
          input₂.pose_graph.trajectory out₁.state [] = .ok r₂ ∧
        m₂ = r₂.remapping := by
      unfold loadStateRemapping at hm2
      cases ha2 : allocateTrajectories input₂.all_trajectory_builder_options f₂
          input₂.pose_graph.trajectory out₁.state [] with
      | error e => rw [ha2] at hm2; cases hm2
      | ok r₂ => rw [ha2] at hm2; cases hm2; exact ⟨r₂, rfl, rfl⟩
    obtain ⟨r₂, ha2, hm2'⟩ := hex2
    obtain ⟨_, _, hmm2, _, _, _, _⟩ := allocateTrajectories_ok _ _ _ _ _ _ ha2
    subst hm2'
    rw [hmm1] at hf1
    rw [hmm2] at hf2
    simp only [List.nil_append] at hf1 hf2
    have p1 := assocFind_eq_some_mem _ _ _ hf1
    have p2 := assocFind_eq_some_mem _ _ _ hf2
    have q1 := (List.of_mem_zip p1).2
    have q2 := (List.of_mem_zip p2).2
    have b1 := mem_freshIds_bounds q1
    have b2 := mem_freshIds_bounds q2
    have hlen : out₁.state.trajectory_builders.length =
        s.trajectory_builders.length +
          input₁.pose_graph.trajectory.length := by
      subst hout₁
      simpa using congrArg List.length hb1
    rw [hlen] at b2
    push_cast at b1 b2
    omega
  · intro input f s out m cs h hm hcs
    obtain ⟨r, cs', h1, h2, hfil⟩ := loadState_constraint_filter h
    unfold loadStateRemapping at hm
    rw [h1] at hm
    cases hm
    rw [h2] at hcs
    cases hcs
    constructor
    · intro l hl
      have hl' : Event.AddSerializedConstraints l ∈
          out.events.filter isConstraintEvent :=
        List.mem_filter.mpr ⟨hl, by simp [isConstraintEvent]⟩
      rw [hfil] at hl'
      cases f
      · have hce : constraintEvents false cs =
            [Event.AddSerializedConstraints cs] := rfl
        rw [hce] at hl'
        have heq := List.mem_singleton.mp hl'
        injection heq with h
      · simp only [constraintEvents, if_true] at hl'
        rcases List.mem_map.mp hl' with ⟨c, _, hc⟩
        cases hc
    · intro nid sid hl
      have hl' : Event.AddNodeToSubmap nid sid ∈
          out.events.filter isConstraintEvent :=
        List.mem_filter.mpr ⟨hl, by simp [isConstraintEvent]⟩
      rw [hfil] at hl'
      cases f
      · have hce : constraintEvents false cs =
            [Event.AddSerializedConstraints cs] := rfl
        rw [hce] at hl'
        have heq := List.mem_singleton.mp hl'
        cases heq
      · simp only [constraintEvents, if_true] at hl'
        rcases List.mem_map.mp hl' with ⟨c, hcmem, hc⟩
        rcases List.mem_filter.mp hcmem with ⟨hcs', hintra⟩
        cases hc
        exact ⟨c, hcs', hintra, rfl, rfl⟩

/-- Witness for C1: loading the example saved state (saved trajectory
id 0) twice into one orchestrator remaps id 0 to 0 and then to 1. -/
theorem claim_loadState_remapping_witness :
    MapBuilder.LoadState exInput false (initialMapBuilderState false) =
      .ok exOut1 ∧
    loadStateRemapping exInput false (initialMapBuilderState false) =
      .ok [(0, 0)] ∧
    loadStateRemapping exInput false exOut1.state = .ok [(0, 1)] ∧
    assocFind [((0 : Int), (0 : Int))] 0 = some 0 ∧
    assocFind [((0 : Int), (1 : Int))] 0 = some 1 ∧
    (0 : Int) ≠ 1 :=
  ⟨rfl, rfl, rfl, rfl, rfl,
   claim_loadState_remapping.2.1 exInput exInput false false
     (initialMapBuilderState false) exOut1 [(0, 0)] [(0, 1)] 0 1
     rfl rfl rfl rfl rfl⟩

/-- C2 counterexample: loading a saved state whose only trajectory used
saved id 0 (with a submap at local index 0) into an orchestrator that
already has one live trajectory files the summary submap pose under the
REMAPPED composite id (1, 0); the table holds no entry under the
original saved id (0, 0), so the lookup tables are not keyed by the
original composite ids read from the summary. -/
theorem claim_pose_tables_counterexample :
    exInput.pose_graph.trajectory.map TrajectoryProto.trajectory_id = [0] ∧
    exInput.pose_graph.trajectory.map TrajectoryProto.submap =
      [[⟨0, exPose⟩]] ∧
    loadStateSubmapPoses exInput false exStateOneLive =
      .ok [(SubmapId.mk 1 0, exPose)] ∧
    assocFind [(SubmapId.mk 1 0, exPose)] (SubmapId.mk 0 0) = none :=
  ⟨rfl, rfl, rfl, rfl⟩

/-- C2 amended: the two lookup tables are keyed by the REMAPPED
composite ids — the newly allocated trajectory id (the summary's
trajectory ids having been rewritten in place) plus the saved local
submap/node index — and each streamed submap/node record's trajectory id
is first remapped through the table, after which the pose found under
that remapped id is applied to the record. -/
theorem claim_pose_tables_keyed_by_remapped_ids :
    (∀ (input : ProtoStreamInput) (f : Bool) (s : MapBuilderState)
       (r : AllocResult),
      allocateTrajectories input.all_trajectory_builder_options f
          input.pose_graph.trajectory s [] = .ok r →
      r.trajectories.map TrajectoryProto.trajectory_id =
        freshIds s.trajectory_builders.length
          input.pose_graph.trajectory.length ∧
      r.trajectories.map TrajectoryProto.submap =
        input.pose_graph.trajectory.map TrajectoryProto.submap ∧
      r.trajectories.map TrajectoryProto.node =
        input.pose_graph.trajectory.map TrajectoryProto.node ∧
      (∀ t, buildSubmapPoses r.trajectories [] = .ok t →
        t.map Prod.fst = submapPoseKeys r.trajectories) ∧
      (∀ t, buildNodePoses r.trajectories [] = .ok t →
        t.map Prod.fst = nodePoseKeys r.trajectories)) ∧
    (∀ (f : Bool) (m : List (Int × Int)) (sp : List (SubmapId × Rigid3d))
       (np : List (NodeId × Rigid3d)) (submap_id : SubmapId)
       (payload : Nat) (tid : Int) (pose : Rigid3d),
      assocFind m submap_id.trajectory_id = some tid →
      assocFind sp (SubmapId.mk tid submap_id.submap_index) = some pose →
      processRecord f m sp np (.kSubmap submap_id payload) =
        .ok [Event.AddSubmapFromProto pose
          (SubmapId.mk tid submap_id.submap_index) payload]) ∧
    (∀ (f : Bool) (m : List (Int × Int)) (sp : List (SubmapId × Rigid3d))
       (np : List (NodeId × Rigid3d)) (node_id : NodeId)
       (payload : Nat) (tid : Int) (pose : Rigid3d),
      assocFind m node_id.trajectory_id = some tid →
      assocFind np (NodeId.mk tid node_id.node_index) = some pose →
      processRecord f m sp np (.kNode node_id payload) =
        .ok [Event.AddNodeFromProto pose
          (NodeId.mk tid node_id.node_index) payload]) := by
  refine ⟨?_, ?_, ?_⟩
  · intro input f s r h
    obtain ⟨_, _, _, _, hid, hsm, hnd⟩ := allocateTrajectories_ok _ _ _ _ _ _ h
    refine ⟨hid, hsm, hnd, ?_, ?_⟩
    · intro t ht
      simpa using buildSubmapPoses_keys _ _ _ ht
    · intro t ht
      simpa using buildNodePoses_keys _ _ _ ht
  · intro f m sp np sid payload tid pose h1 h2
    simp [processRecord, h1, h2]
  · intro f m sp np nid payload tid pose h1 h2
    simp [processRecord, h1, h2]

/-- Witness for the amended C2 at the concrete merge example. -/
theorem claim_pose_tables_keyed_by_remapped_ids_witness :
    allocateTrajectories exInput.all_trajectory_builder_options false
        exInput.pose_graph.trajectory exStateOneLive [] = .ok exAlloc ∧
    (exAlloc.trajectories.map TrajectoryProto.trajectory_id =
        freshIds exStateOneLive.trajectory_builders.length
          exInput.pose_graph.trajectory.length ∧
      exAlloc.trajectories.map TrajectoryProto.submap =
        exInput.pose_graph.trajectory.map TrajectoryProto.submap ∧
      exAlloc.trajectories.map TrajectoryProto.node =
        exInput.pose_graph.trajectory.map TrajectoryProto.node ∧
      (∀ t, buildSubmapPoses exAlloc.trajectories [] = .ok t →
        t.map Prod.fst = submapPoseKeys exAlloc.trajectories) ∧
      (∀ t, buildNodePoses exAlloc.trajectories [] = .ok t →
        t.map Prod.fst = nodePoseKeys exAlloc.trajectories)) :=
  ⟨rfl, claim_pose_tables_keyed_by_remapped_ids.1 exInput false
      exStateOneLive exAlloc rfl⟩

/-- C10: `LoadStateLandmark` performs, for every input stream and flag,
exactly `LoadState`'s phases and pose-graph calls, except that right
after applying the summary's landmark poses it additionally upserts, per
parsed line (an integer index followed by seven numbers) of the
landmark-poses file, a landmark keyed by the decimal string of the index
via `SetLandmarkPose`; when the file contributes no lines the two
operations have identical effect. -/
theorem claim_loadStateLandmark_refines :
    (∀ (input : ProtoStreamInput) (landmark_lines : List LandmarkFileLine)
       (f : Bool) (s : MapBuilderState),
      MapBuilder.LoadStateLandmark input landmark_lines f s =
        (MapBuilder.LoadState input f s).map (fun out =>
          ⟨out.state,
           out.events.take (summaryPrefixLen input f) ++
           landmarkFileEvents landmark_lines ++
           out.events.drop (summaryPrefixLen input f)⟩)) ∧
    (∀ (input : ProtoStreamInput) (f : Bool) (s : MapBuilderState),
      MapBuilder.LoadStateLandmark input [] f s =
        MapBuilder.LoadState input f s) := by
  have main : ∀ (input : ProtoStreamInput)
      (landmark_lines : List LandmarkFileLine) (f : Bool)
      (s : MapBuilderState),
      MapBuilder.LoadStateLandmark input landmark_lines f s =
        (MapBuilder.LoadState input f s).map (fun out =>
          ⟨out.state,
           out.events.take (summaryPrefixLen input f) ++
           landmarkFileEvents landmark_lines ++
           out.events.drop (summaryPrefixLen input f)⟩) := by
    intro input lines f s
    unfold MapBuilder.LoadStateLandmark MapBuilder.LoadState
    cases h1 : allocateTrajectories input.all_trajectory_builder_options f
        input.pose_graph.trajectory s [] with
    | error e => simp [Except.map]
    | ok r =>
      dsimp only
      cases h2 : remapConstraintList r.remapping input.pose_graph.constraint with
      | error e => simp [Except.map]
      | ok cs =>
        dsimp only
        cases h3 : buildSubmapPoses r.trajectories [] with
        | error e => simp [Except.map]
        | ok sp =>
          dsimp only
          cases h4 : buildNodePoses r.trajectories [] with
          | error e => simp [Except.map]
          | ok np =>
            dsimp only
            cases h5 : processStream f r.remapping sp np input.records with
            | error e => simp [Except.map]
            | ok se =>
              dsimp only
              cases he : input.at_eof_after_records with
              | false => simp [Except.map]
              | true =>
                simp only [if_true]
                obtain ⟨_, _, _, hev, _, _, _⟩ :=
                  allocateTrajectories_ok _ _ _ _ _ _ h1
                have hplen : summaryPrefixLen input f =
                    (r.events ++
                      landmarkPoseEvents input.pose_graph.landmark_poses).length := by
                  rw [List.length_append, hev]
                  cases f <;>
                    simp [summaryPrefixLen, landmarkPoseEvents, freshIds_length]
                simp only [Except.map]
                rw [hplen,
                  List.append_assoc
                    (r.events ++ landmarkPoseEvents input.pose_graph.landmark_poses)
                    se (constraintEvents f cs),
                  List.take_left, List.drop_left]
                simp [List.append_assoc]
  refine ⟨main, ?_⟩
  intro input f s
  rw [main input [] f s]
  cases hls : MapBuilder.LoadState input f s with
  | error e => simp [Except.map]
  | ok out => simp [Except.map, landmarkFileEvents, List.take_append_drop]

end MapBuilderModel
